import Mathlib

/-!
Verification of the kenya-trends-automation post-generation pipeline.

Shallow embedding of `src/main.py` (classes `SocialMediaGenerator` and
`TrendsAutomationSystem`) and `src/config.py` (class `Config`).

Modelling conventions:
  * Python dicts keyed by strings become association lists, looked up with
    `List.lookup` (first match; the dicts in the source have distinct keys).
  * Fallible Python code returns `Except String α`; the error string names the
    exception raised.
  * The value under `'top'` in a pytrends related-queries dict is a pandas
    `DataFrame` or `None` (the repo pins pytrends 4.9.2 / pandas 2.0.3, and the
    code uses `.empty` and `.iloc`).  A `RelatedQueries` record models it:
    `top = none` when the key is absent or holds `None`, `top = some qs` for a
    present frame whose `query` column reads `qs` in order.  Truth-testing a
    present frame — `if related_queries.get('top'):` — raises `ValueError`
    unconditionally (`DataFrame.__bool__` raises even on an empty frame), so
    `generate_context` errors whenever `top` is `some`; the related-searches
    phrase of the source is unreachable without an exception and does not
    appear in the embedding's reachable values.
  * `str.format(keyword=..., context=...)` parses the template into literal
    characters and the fields `{keyword}` / `{context}`, with `{{` / `}}` as
    brace escapes (`parseTpl`), and renders the parts (`renderTpl`).  A foreign
    field such as `{foo}` raises `KeyError`, a stray brace `ValueError`; the
    embedding reports both through `formatError` without distinguishing the
    two exception classes.  A template without a placeholder ignores the
    corresponding argument, exactly like Python.
  * The unseeded `random` calls become an oracle `Rng` of index choices;
    `random.choice(l)` is `listChoice l n` for an arbitrary oracle index `n`
    (an in-range element for every nonempty list, with every element
    reachable), and `random.sample(pool, 3)` is an oracle field constrained by
    `Rng.SampleValid` (three distinct elements of the pool).
  * `datetime.now().isoformat()` is a `now : String` parameter.
  * File effects of a run are recorded as a `List FileOp` trace alongside the
    run's output value; an exception inside the `try` body reaches the
    top-level `except`, which prints and performs no file operation.
-/

inductive TplPart where
  | lit (c : Char)
  | fieldKeyword
  | fieldContext
deriving DecidableEq, Repr

/-- The message standing for the `ValueError` pandas raises when a `DataFrame`
is truth-tested (src/main.py line 135). -/
def dataFrameBoolError : String :=
  "ValueError: The truth value of a DataFrame is ambiguous."

/-- The message standing for what `str.format` raises on a template outside
the two supported fields: `KeyError` for a foreign field name, `ValueError`
for a stray brace (the embedding does not distinguish the two classes). -/
def formatError : String :=
  "KeyError or ValueError from str.format"

/-- The chunks Python's `str.format` reads from a template: the fields
`{keyword}` and `{context}`, the escapes `{{` and `}}`, every other character
literal; any other use of a brace raises. -/
def parseTpl : List Char → Except String (List TplPart)
  | '{' :: 'k' :: 'e' :: 'y' :: 'w' :: 'o' :: 'r' :: 'd' :: '}' :: rest =>
      (parseTpl rest).map (TplPart.fieldKeyword :: ·)
  | '{' :: 'c' :: 'o' :: 'n' :: 't' :: 'e' :: 'x' :: 't' :: '}' :: rest =>
      (parseTpl rest).map (TplPart.fieldContext :: ·)
  | '{' :: '{' :: rest => (parseTpl rest).map (TplPart.lit '{' :: ·)
  | '}' :: '}' :: rest => (parseTpl rest).map (TplPart.lit '}' :: ·)
  | '{' :: _ => Except.error formatError
  | '}' :: _ => Except.error formatError
  | c :: rest => (parseTpl rest).map (TplPart.lit c :: ·)
  | [] => Except.ok []

/-- Substitute the two field values into a parsed template. -/
def renderTpl (kw ctx : String) : List TplPart → List Char
  | [] => []
  | TplPart.fieldKeyword :: rest => kw.data ++ renderTpl kw ctx rest
  | TplPart.fieldContext :: rest => ctx.data ++ renderTpl kw ctx rest
  | TplPart.lit c :: rest => c :: renderTpl kw ctx rest

/-- `template.format(keyword=kw, context=ctx)`: parse, then substitute; the
parse errors are `str.format`'s `KeyError`/`ValueError`. -/
def pyFormat (t kw ctx : String) : Except String String :=
  (parseTpl t.data).map fun parts => ⟨renderTpl kw ctx parts⟩

/-- Python's `" ".join`. -/
def joinSp : List String → String
  | [] => ""
  | [s] => s
  | s :: b :: t => s ++ " " ++ joinSp (b :: t)

/-- The value `related_queries_data` holds for one keyword (a pytrends
related-queries dict): `top = none` for an absent key or a `None` value,
`top = some qs` for a present frame with query column `qs`. -/
structure RelatedQueries where
  top : Option (List String)
deriving DecidableEq, Repr

def peakPhrase : String := "Search interest is at its peak!"
def growingPhrase : String := "Growing rapidly in search trends."
def momentumPhrase : String := "Gaining momentum in search interest."
def fallbackPhrase : String := "Stay updated with the latest trends!"

/-- The tier phrase `generate_context` appends to `context_parts`
(src/main.py lines 124-132): one phrase by threshold when the keyword has an
interest score, nothing otherwise. -/
def tierParts (keyword : String) (interest_data : List (String × Int)) :
    List String :=
  match List.lookup keyword interest_data with
  | some interest_level =>
      if interest_level > 80 then [peakPhrase]
      else if interest_level > 50 then [growingPhrase]
      else [momentumPhrase]
  | none => []

/-- `SocialMediaGenerator.generate_context` (src/main.py lines 120-141).
After the interest branch fills `context_parts` (`tierParts`), line 135
truth-tests `related_queries.get('top')`: `None`/absent is falsy and the
branch is skipped, but a present `DataFrame` raises `ValueError`
unconditionally, so the function never reaches its `return` in that case —
the related-searches phrase is unreachable. -/
def generate_context (keyword : String) (interest_data : List (String × Int))
    (related_queries : RelatedQueries) : Except String String :=
  let context_parts := tierParts keyword interest_data
  match related_queries.top with
  | some _ => Except.error dataFrameBoolError
  | none =>
      Except.ok (if context_parts = [] then fallbackPhrase
                 else joinSp context_parts)

/-- `SocialMediaGenerator.post_templates` (src/main.py lines 96-113). -/
def post_templates : List (String × List String) :=
  [("trending",
    ["🔥 What's trending in Kenya right now: '{keyword}' is gaining massive attention! {context} #TrendingKenya #Kenya",
     "📈 Kenyans are talking about '{keyword}' - here's what you need to know: {context} #KenyaTrends",
     "🇰🇪 Breaking: '{keyword}' is trending across Kenya! {context} #KenyaNews #Trending",
     "⚡ Hot topic alert: '{keyword}' is the talk of Kenya today! {context} #KenyaTrends #Viral"]),
   ("educational",
    ["📚 Did you know? '{keyword}' is trending in Kenya. Here's why it matters: {context} #LearnSomethingNew #Kenya",
     "🎓 Trending topic breakdown: '{keyword}' explained for Kenyans {context} #Education #KenyaInsights",
     "💡 Understanding the buzz around '{keyword}' in Kenya: {context} #Knowledge #TrendAnalysis"]),
   ("engagement",
    ["🤔 What do you think about '{keyword}' trending in Kenya? Share your thoughts! {context} #KenyaDebate",
     "📊 Poll time! How do you feel about '{keyword}' trending in Kenya? {context} #KenyaOpinion #Vote",
     "💬 Let's discuss: '{keyword}' is trending - what's your take, Kenya? {context} #Discussion"])]

/-- `SocialMediaGenerator.hashtags_kenya` (src/main.py lines 115-118). -/
def hashtags_kenya : List String :=
  ["#Kenya", "#Nairobi", "#KenyaTrends", "#KOT", "#TukoTogether",
   "#KenyaDaily", "#EastAfrica", "#Kenyan", "#NairobiLife", "#KenyaNews"]

/-- The oracle standing for the unseeded `random` module: an index stream for
the category choice, one for the template choice, and the sampled hashtag list,
per loop iteration. -/
structure Rng where
  pickCat : Nat → Nat
  pickTpl : Nat → Nat
  sampleTags : Nat → List String

/-- What `random.sample(self.hashtags_kenya, 3)` guarantees about the sampled
list: three distinct members of the pool. -/
def Rng.SampleValid (g : Rng) : Prop :=
  ∀ i, (g.sampleTags i).length = 3 ∧ (g.sampleTags i).Nodup ∧
    ∀ t ∈ g.sampleTags i, t ∈ hashtags_kenya

/-- `random.choice(l)` driven by an oracle index: some element of `l` when `l`
is nonempty, with every element reachable for a suitable index. -/
def listChoice (l : List String) (n : Nat) : String :=
  l.getD (n % l.length) ""

/-- The literal list `['trending', 'educational', 'engagement']` the composer
draws the category from (src/main.py line 154). -/
def categoryChoices : List String := ["trending", "educational", "engagement"]

def selectCategory (g : Rng) (i : Nat) : String :=
  listChoice categoryChoices (g.pickCat i)

/-- Dict indexing into a category→pool table, `[]` for a missing key (the
composer only ever indexes with a present key). -/
def poolOf (tbl : List (String × List String)) (cat : String) : List String :=
  (List.lookup cat tbl).getD []

def selectTemplate (tbl : List (String × List String)) (g : Rng) (i : Nat) : String :=
  listChoice (poolOf tbl (selectCategory g i)) (g.pickTpl i)

/-- The dict `create_social_media_posts` appends to `posts`
(src/main.py lines 165-172). -/
structure Post where
  content : String
  keyword : String
  template_type : String
  timestamp : String
  platform : String
  character_count : Nat
deriving DecidableEq, Repr, Inhabited

/-- The post one loop iteration appends when both `generate_context` and the
template formatting return (src/main.py lines 160-174): the hashtags are
appended to the formatted content and `character_count` taken from the final
string. -/
def composedPost (g : Rng) (now template_type post_content keyword : String)
    (i : Nat) : Post :=
  { content := post_content ++ " " ++ joinSp (g.sampleTags i)
    keyword := keyword
    template_type := template_type
    timestamp := now
    platform := "multiple"
    character_count := (post_content ++ " " ++ joinSp (g.sampleTags i)).length }

/-- One iteration of the `for keyword in trending_keywords[:5]` loop of
`create_social_media_posts` (src/main.py lines 148-174); `i` is the iteration
index feeding the random oracle.  An exception from `generate_context` (a
present related frame) or from `template.format` propagates. -/
def composeOne (tbl : List (String × List String)) (g : Rng) (now : String)
    (interest_data : List (String × Int))
    (related_queries_data : List (String × RelatedQueries))
    (i : Nat) (keyword : String) : Except String Post :=
  match generate_context keyword interest_data
      ((List.lookup keyword related_queries_data).getD ⟨none⟩) with
  | Except.error e => Except.error e
  | Except.ok context =>
      match pyFormat (listChoice (poolOf tbl (selectCategory g i)) (g.pickTpl i))
          keyword context with
      | Except.error e => Except.error e
      | Except.ok post_content =>
          Except.ok (composedPost g now (selectCategory g i) post_content keyword i)

/-- The loop of `create_social_media_posts` over the enumerated taken
keywords: iterations run in order and the first exception aborts the whole
call (the partial `posts` list is discarded as the exception propagates). -/
def composeLoop (tbl : List (String × List String)) (g : Rng) (now : String)
    (interest_data : List (String × Int))
    (related_queries_data : List (String × RelatedQueries)) :
    List (Nat × String) → Except String (List Post)
  | [] => Except.ok []
  | p :: rest =>
      match composeOne tbl g now interest_data related_queries_data p.1 p.2 with
      | Except.error e => Except.error e
      | Except.ok post =>
          match composeLoop tbl g now interest_data related_queries_data rest with
          | Except.error e => Except.error e
          | Except.ok posts => Except.ok (post :: posts)

/-- `SocialMediaGenerator.create_social_media_posts` (src/main.py lines
143-176), over an arbitrary template table (the method reads the table off
`self.post_templates`, which `__init__` sets to `post_templates`). -/
def create_social_media_posts_with (tbl : List (String × List String))
    (g : Rng) (now : String) (trending_keywords : List String)
    (interest_data : List (String × Int))
    (related_queries_data : List (String × RelatedQueries)) :
    Except String (List Post) :=
  composeLoop tbl g now interest_data related_queries_data
    (trending_keywords.take 5).enum

/-- `create_social_media_posts` with the table `__init__` installs. -/
def create_social_media_posts (g : Rng) (now : String)
    (trending_keywords : List String) (interest_data : List (String × Int))
    (related_queries_data : List (String × RelatedQueries)) :
    Except String (List Post) :=
  create_social_media_posts_with post_templates g now trending_keywords
    interest_data related_queries_data

/-- `Config.POST_TEMPLATES` (src/config.py lines 69-94). -/
def POST_TEMPLATES : List (String × List String) :=
  [("trending",
    ["🔥 What's hot in Kenya: '{keyword}' is trending! {context} #TrendingKenya",
     "📈 Kenyans can't stop talking about '{keyword}' - {context} #KOT #Kenya",
     "⚡ Breaking trend: '{keyword}' is taking over Kenya! {context} #Viral",
     "🇰🇪 Trending now: '{keyword}' - here's what Kenyans are saying {context}"]),
   ("educational",
    ["📚 Trend explained: Why '{keyword}' is popular in Kenya {context} #Education",
     "💡 Understanding '{keyword}': {context} #LearnSomethingNew #Kenya",
     "🎓 Kenyan trend spotlight: '{keyword}' - {context} #KnowledgeIsWealth",
     "📖 Deep dive: '{keyword}' and its impact in Kenya {context}"]),
   ("engagement",
    ["🤔 What's your take on '{keyword}' trending in Kenya? {context} #KenyaDebate",
     "📊 Quick poll: How do you feel about '{keyword}'? {context} #KenyaOpinion",
     "💬 Let's discuss '{keyword}' - what are your thoughts, KOT? {context}",
     "🗣️ Kenya speaks: Share your opinion on '{keyword}' {context} #Discussion"]),
   ("news",
    ["📰 News update: '{keyword}' making headlines in Kenya {context} #KenyaNews",
     "🚨 Alert: '{keyword}' - here's what Kenyans need to know {context}",
     "📢 Update on '{keyword}': {context} #NewsUpdate #Kenya",
     "⚠️ Important: '{keyword}' trending - stay informed {context}"])]

/-- `Config.get_template_by_category` (src/config.py lines 156-159):
`cls.POST_TEMPLATES.get(category, cls.POST_TEMPLATES['trending'])`. -/
def get_template_by_category (category : String) : List String :=
  (List.lookup category POST_TEMPLATES).getD (poolOf POST_TEMPLATES "trending")

/-- The state of `previous_trends.json` as `json.load` sees it: absent,
unparseable, or a parsed object whose `processed_keywords` entry is the
given list (or absent). -/
inductive LogFile where
  | missing
  | malformed
  | parsed (processed_keywords : Option (List String))
deriving DecidableEq, Repr

/-- `TrendsAutomationSystem.load_previous_trends` (src/main.py lines 228-235):
the `try` block catches `FileNotFoundError` only, so a malformed file's
`json.JSONDecodeError` propagates to the caller. -/
def load_previous_trends : LogFile → Except String (List String)
  | LogFile.missing => Except.ok []
  | LogFile.malformed => Except.error "json.JSONDecodeError"
  | LogFile.parsed pk => Except.ok (pk.getD [])

/-- The results the three `GoogleTrendsKenya` fetchers hand `run_automation`:
the trending list, interest data as a function of the queried keyword list,
and the related-queries result per keyword. -/
structure FetchResults where
  trending : List String
  interest : List String → List (String × Int)
  related : String → RelatedQueries

/-- The `automation_data` dict `run_automation` passes to `save_data`
(src/main.py lines 278-284). -/
structure OutputData where
  timestamp : String
  trending_keywords : List String
  interest_data : List (String × Int)
  related_queries : List (String × RelatedQueries)
  generated_posts : List Post

/-- The file operations a run can perform: loading `previous_trends.json`,
overwriting it, and writing the timestamped output file via `save_data`. -/
inductive FileOp where
  | loadPrev
  | savePrev
  | saveData
deriving DecidableEq, Repr

/-- `TrendsAutomationSystem.run_automation` (src/main.py lines 246-305): the
written output and the trace of file operations performed.  An empty trending
list returns early; an exception during post composition reaches the
top-level `except Exception`, which prints the error — in both cases nothing
is written. -/
def run_automation (g : Rng) (now : String) (f : FetchResults) :
    Option OutputData × List FileOp :=
  let trending_keywords := f.trending
  if trending_keywords = [] then (none, [])
  else
    let interest_data := f.interest (trending_keywords.take 5)
    let related_queries_data :=
      (trending_keywords.take 3).map fun keyword => (keyword, f.related keyword)
    match create_social_media_posts g now trending_keywords interest_data
        related_queries_data with
    | Except.error _ => (none, [])
    | Except.ok posts =>
        (some { timestamp := now
                trending_keywords := trending_keywords
                interest_data := interest_data
                related_queries := related_queries_data
                generated_posts := posts },
         [FileOp.saveData])

/-- A concrete oracle for witnesses: always the first choice, and a fixed
3-element hashtag sample. -/
def g0 : Rng :=
  { pickCat := fun _ => 0
    pickTpl := fun _ => 0
    sampleTags := fun _ => ["#Kenya", "#Nairobi", "#KenyaTrends"] }

theorem g0_sample_valid : Rng.SampleValid g0 := by
  intro i
  refine ⟨rfl, ?_, ?_⟩
  · show (["#Kenya", "#Nairobi", "#KenyaTrends"] : List String).Nodup
    decide
  · show ∀ t ∈ (["#Kenya", "#Nairobi", "#KenyaTrends"] : List String), t ∈ hashtags_kenya
    decide

/-- Fetch results with an empty trending list. -/
def fEmpty : FetchResults :=
  { trending := [], interest := fun _ => [], related := fun _ => ⟨none⟩ }

/-- Concrete fetch results with five distinct keywords, one scored, and no
related frame for any keyword (pytrends returned `None` everywhere): a run on
these completes and writes its output. -/
def fFive : FetchResults :=
  { trending := ["NTSA", "KCSE 2024", "Harambee Stars", "M-Pesa", "Safari Rally"]
    interest := fun _ => [("NTSA", 85)]
    related := fun _ => ⟨none⟩ }

/-- `fFive` with a present related frame for every queried keyword — the
normal data-present shape, on which the run aborts with `ValueError`. -/
def fFiveFrames : FetchResults :=
  { trending := ["NTSA", "KCSE 2024", "Harambee Stars", "M-Pesa", "Safari Rally"]
    interest := fun _ => [("NTSA", 85)]
    related := fun _ => ⟨some ["road safety"]⟩ }

/-! ## Helper lemmas -/

theorem listChoice_mem (l : List String) (n : Nat) (h : l ≠ []) :
    listChoice l n ∈ l := by
  have hl : 0 < l.length := List.length_pos.mpr h
  have hlt : n % l.length < l.length := Nat.mod_lt _ hl
  rw [listChoice, List.getD_eq_getElem?_getD, List.getElem?_eq_getElem hlt]
  simp

theorem infix_extend {l r : List Char} (a : List Char) (h : l <:+: r) :
    l <:+: r ++ a := by
  obtain ⟨s, t, hst⟩ := h
  exact ⟨s, t ++ a, by rw [← hst]; simp⟩

theorem renderTpl_keyword_infix (kw ctx : String) :
    ∀ parts : List TplPart, TplPart.fieldKeyword ∈ parts →
      kw.data <:+: renderTpl kw ctx parts := by
  intro parts
  induction parts with
  | nil => intro h; cases h
  | cons hd tl ih =>
    intro hmem
    cases hd with
    | fieldKeyword =>
        exact ⟨[], renderTpl kw ctx tl, by simp [renderTpl]⟩
    | fieldContext =>
        have htl : TplPart.fieldKeyword ∈ tl := by
          cases hmem with
          | tail _ h => exact h
        obtain ⟨s, t, hst⟩ := ih htl
        refine ⟨ctx.data ++ s, t, ?_⟩
        simp only [renderTpl]
        rw [← hst]
        simp [List.append_assoc]
    | lit c =>
        have htl : TplPart.fieldKeyword ∈ tl := by
          cases hmem with
          | tail _ h => exact h
        obtain ⟨s, t, hst⟩ := ih htl
        refine ⟨c :: s, t, ?_⟩
        simp only [renderTpl]
        rw [← hst]
        simp

/-- `RelatedQueries` has the single field `top`, so the frame-free value is
unique. -/
theorem RelatedQueries_top_none (rq : RelatedQueries) (h : rq.top = none) :
    rq = ⟨none⟩ := by
  cases rq
  simp_all

/-- Every template of every pool of the composer's table parses (no stray
braces, no foreign fields) and carries both placeholders. -/
theorem post_templates_parse :
    ∀ c ∈ categoryChoices, ∀ t ∈ poolOf post_templates c,
      (parseTpl t.data).toOption.isSome = true ∧
      TplPart.fieldKeyword ∈ (parseTpl t.data).toOption.getD [] ∧
      TplPart.fieldContext ∈ (parseTpl t.data).toOption.getD [] := by
  decide

theorem selectCategory_mem (g : Rng) (i : Nat) :
    selectCategory g i ∈ categoryChoices :=
  listChoice_mem _ _ (by decide)

theorem poolOf_post_templates_ne_nil (c : String) (hc : c ∈ categoryChoices) :
    poolOf post_templates c ≠ [] := by
  fin_cases hc <;> decide

theorem selectTemplate_mem (g : Rng) (i : Nat) :
    selectTemplate post_templates g i ∈ poolOf post_templates (selectCategory g i) :=
  listChoice_mem _ _ (poolOf_post_templates_ne_nil _ (selectCategory_mem g i))

theorem composeOne_ok_fields (tbl : List (String × List String)) (g : Rng)
    (now : String) (interest : List (String × Int))
    (rqd : List (String × RelatedQueries)) (i : Nat) (kw : String) (post : Post)
    (h : composeOne tbl g now interest rqd i kw = Except.ok post) :
    post.keyword = kw ∧
    post.template_type = selectCategory g i ∧
    post.character_count = post.content.length ∧
    ∃ ctx body,
      generate_context kw interest ((List.lookup kw rqd).getD ⟨none⟩) =
        Except.ok ctx ∧
      pyFormat (selectTemplate tbl g i) kw ctx = Except.ok body ∧
      post.content = body ++ " " ++ joinSp (g.sampleTags i) := by
  unfold composeOne at h
  split at h
  · exact Except.noConfusion h
  next ctx hctx =>
    split at h
    · exact Except.noConfusion h
    next body hbody =>
      injection h with h
      subst h
      exact ⟨rfl, rfl, rfl, ctx, body, hctx, hbody, rfl⟩

theorem pyFormat_ok_of_parse (t kw ctx : String)
    (h : (parseTpl t.data).toOption.isSome = true) :
    ∃ s, pyFormat t kw ctx = Except.ok s := by
  unfold pyFormat
  cases hp : parseTpl t.data with
  | error e => rw [hp] at h; simp [Except.toOption] at h
  | ok parts => exact ⟨⟨renderTpl kw ctx parts⟩, rfl⟩

theorem composeOne_shipped_ok (g : Rng) (now : String)
    (interest : List (String × Int)) (rqd : List (String × RelatedQueries))
    (i : Nat) (kw : String)
    (h : ((List.lookup kw rqd).getD ⟨none⟩).top = none) :
    ∃ post, composeOne post_templates g now interest rqd i kw = Except.ok post := by
  have hrq := RelatedQueries_top_none _ h
  have hparse := (post_templates_parse _ (selectCategory_mem g i) _
    (selectTemplate_mem g i)).1
  obtain ⟨body, hbody⟩ := pyFormat_ok_of_parse (selectTemplate post_templates g i) kw
    (if tierParts kw interest = [] then fallbackPhrase
     else joinSp (tierParts kw interest)) hparse
  unfold selectTemplate at hbody
  refine ⟨composedPost g now (selectCategory g i) body kw i, ?_⟩
  unfold composeOne
  rw [hrq]
  simp only [generate_context]
  rw [hbody]

theorem composeOne_frame_error (tbl : List (String × List String)) (g : Rng)
    (now : String) (interest : List (String × Int))
    (rqd : List (String × RelatedQueries)) (i : Nat) (kw : String)
    (h : ((List.lookup kw rqd).getD ⟨none⟩).top ≠ none) :
    composeOne tbl g now interest rqd i kw = Except.error dataFrameBoolError := by
  obtain ⟨df, hdf⟩ := Option.ne_none_iff_exists'.mp h
  have hg : generate_context kw interest ((List.lookup kw rqd).getD ⟨none⟩) =
      Except.error dataFrameBoolError := by
    unfold generate_context
    rw [hdf]
  unfold composeOne
  rw [hg]

theorem composeLoop_ok_exists (tbl : List (String × List String)) (g : Rng)
    (now : String) (interest : List (String × Int))
    (rqd : List (String × RelatedQueries)) :
    ∀ l : List (Nat × String),
      (∀ p ∈ l, ∃ post, composeOne tbl g now interest rqd p.1 p.2 = Except.ok post) →
      ∃ posts, composeLoop tbl g now interest rqd l = Except.ok posts := by
  intro l
  induction l with
  | nil => intro _; exact ⟨[], rfl⟩
  | cons a t ih =>
      intro h
      obtain ⟨post, hpost⟩ := h a (List.mem_cons_self a t)
      obtain ⟨posts, hposts⟩ := ih (fun p hp => h p (List.mem_cons_of_mem a hp))
      exact ⟨post :: posts, by simp only [composeLoop, hpost, hposts]⟩

theorem composeLoop_cons_error (tbl : List (String × List String)) (g : Rng)
    (now : String) (interest : List (String × Int))
    (rqd : List (String × RelatedQueries)) (a : Nat × String)
    (t : List (Nat × String)) (e : String)
    (h : composeOne tbl g now interest rqd a.1 a.2 = Except.error e) :
    composeLoop tbl g now interest rqd (a :: t) = Except.error e := by
  simp only [composeLoop, h]

theorem composeLoop_cons_ok_ok (tbl : List (String × List String)) (g : Rng)
    (now : String) (interest : List (String × Int))
    (rqd : List (String × RelatedQueries)) (a : Nat × String)
    (t : List (Nat × String)) (post : Post) (posts : List Post)
    (h1 : composeOne tbl g now interest rqd a.1 a.2 = Except.ok post)
    (h2 : composeLoop tbl g now interest rqd t = Except.ok posts) :
    composeLoop tbl g now interest rqd (a :: t) = Except.ok (post :: posts) := by
  simp only [composeLoop, h1, h2]

theorem composeLoop_cons_ok_error (tbl : List (String × List String)) (g : Rng)
    (now : String) (interest : List (String × Int))
    (rqd : List (String × RelatedQueries)) (a : Nat × String)
    (t : List (Nat × String)) (post : Post) (e : String)
    (h1 : composeOne tbl g now interest rqd a.1 a.2 = Except.ok post)
    (h2 : composeLoop tbl g now interest rqd t = Except.error e) :
    composeLoop tbl g now interest rqd (a :: t) = Except.error e := by
  simp only [composeLoop, h1, h2]

theorem composeLoop_ok_structure (tbl : List (String × List String)) (g : Rng)
    (now : String) (interest : List (String × Int))
    (rqd : List (String × RelatedQueries)) :
    ∀ (l : List (Nat × String)) (posts : List Post),
      composeLoop tbl g now interest rqd l = Except.ok posts →
      posts.map Post.keyword = l.map (fun p => p.2) ∧
      (∀ (i : Nat) (pr : Nat × String), l[i]? = some pr →
          ∃ post, posts[i]? = some post ∧
            composeOne tbl g now interest rqd pr.1 pr.2 = Except.ok post) ∧
      (∀ post ∈ posts, ∃ pr ∈ l,
          composeOne tbl g now interest rqd pr.1 pr.2 = Except.ok post) := by
  intro l
  induction l with
  | nil =>
      intro posts h
      injection h with h
      subst h
      refine ⟨rfl, ?_, ?_⟩ <;> simp
  | cons a t ih =>
      intro posts h
      cases h0 : composeOne tbl g now interest rqd a.1 a.2 with
      | error e =>
          rw [composeLoop_cons_error tbl g now interest rqd a t e h0] at h
          exact Except.noConfusion h
      | ok post0 =>
          cases hrest : composeLoop tbl g now interest rqd t with
          | error e =>
              rw [composeLoop_cons_ok_error tbl g now interest rqd a t post0 e h0
                hrest] at h
              exact Except.noConfusion h
          | ok rest =>
              rw [composeLoop_cons_ok_ok tbl g now interest rqd a t post0 rest h0
                hrest] at h
              injection h with h
              subst h
              obtain ⟨hmap, hidx, hmem⟩ := ih rest hrest
              refine ⟨?_, ?_, ?_⟩
              · simp only [List.map_cons, hmap]
                congr 1
                exact (composeOne_ok_fields tbl g now interest rqd a.1 a.2 post0
                  h0).1
              · intro i pr hpr
                cases i with
                | zero =>
                    simp only [List.getElem?_cons_zero, Option.some.injEq] at hpr
                    subst hpr
                    exact ⟨post0, by simp, h0⟩
                | succ n =>
                    simp only [List.getElem?_cons_succ] at hpr
                    obtain ⟨post, hp1, hp2⟩ := hidx n pr hpr
                    exact ⟨post, by simpa using hp1, hp2⟩
              · intro post hpost
                rcases List.mem_cons.mp hpost with rfl | hpt
                · exact ⟨a, List.mem_cons_self a t, h0⟩
                · obtain ⟨pr, hpr, hone⟩ := hmem post hpt
                  exact ⟨pr, List.mem_cons_of_mem a hpr, hone⟩

theorem composeLoop_error_first (tbl : List (String × List String)) (g : Rng)
    (now : String) (interest : List (String × Int))
    (rqd : List (String × RelatedQueries)) :
    ∀ l : List (Nat × String),
      (∀ p ∈ l, composeOne tbl g now interest rqd p.1 p.2 =
          Except.error dataFrameBoolError ∨
        ∃ post, composeOne tbl g now interest rqd p.1 p.2 = Except.ok post) →
      (∃ p ∈ l, composeOne tbl g now interest rqd p.1 p.2 =
          Except.error dataFrameBoolError) →
      composeLoop tbl g now interest rqd l = Except.error dataFrameBoolError := by
  intro l
  induction l with
  | nil =>
      rintro _ ⟨p, hp, _⟩
      cases hp
  | cons a t ih =>
      rintro hall ⟨p, hp, hbad⟩
      rcases hall a (List.mem_cons_self a t) with ha | ⟨post, ha⟩
      · simp only [composeLoop, ha]
      · have hbt : ∃ q ∈ t, composeOne tbl g now interest rqd q.1 q.2 =
            Except.error dataFrameBoolError := by
          rcases List.mem_cons.mp hp with rfl | hpt
          · rw [ha] at hbad
            exact Except.noConfusion hbad
          · exact ⟨p, hpt, hbad⟩
        have ht := ih (fun q hq => hall q (List.mem_cons_of_mem a hq)) hbt
        simp only [composeLoop, ha, ht]

theorem lookup_map_pair_eq_none (f : String → RelatedQueries) (ks : List String)
    (kw : String) (h : kw ∉ ks) :
    List.lookup kw (ks.map fun k => (k, f k)) = none := by
  induction ks with
  | nil => rfl
  | cons a t ih =>
      simp only [List.mem_cons, not_or] at h
      simp only [List.map_cons, List.lookup, beq_false_of_ne h.1]
      exact ih h.2

theorem lookup_map_pair_eq_some (f : String → RelatedQueries) :
    ∀ (ks : List String) (kw : String) (v : RelatedQueries),
      List.lookup kw (ks.map fun k => (k, f k)) = some v →
      kw ∈ ks ∧ v = f kw := by
  intro ks
  induction ks with
  | nil => intro kw v h; cases h
  | cons a t ih =>
      intro kw v h
      simp only [List.map_cons, List.lookup] at h
      by_cases hak : kw = a
      · subst hak
        rw [beq_self_eq_true] at h
        simp only [] at h
        injection h with h
        exact ⟨List.mem_cons_self kw t, h.symm⟩
      · rw [beq_false_of_ne hak] at h
        simp only [] at h
        obtain ⟨hm, hv⟩ := ih kw v h
        exact ⟨List.mem_cons_of_mem a hm, hv⟩

theorem generate_context_none_ok_mem (kw : String)
    (interest : List (String × Int)) (ctx : String)
    (h : generate_context kw interest ⟨none⟩ = Except.ok ctx) :
    ctx ∈ [peakPhrase, growingPhrase, momentumPhrase, fallbackPhrase] := by
  unfold generate_context at h
  injection h with h
  subst h
  unfold tierParts
  rcases List.lookup kw interest with _ | s
  · simp
  · dsimp only
    split_ifs <;> simp [joinSp]

/-- Every pair listed by `enum` projects to a member of the underlying list. -/
theorem snd_mem_of_mem_enum {l : List String} {p : Nat × String}
    (h : p ∈ l.enum) : p.2 ∈ l := by
  obtain ⟨i, hi⟩ := List.mem_iff_getElem?.mp h
  rw [List.getElem?_enum] at hi
  cases hl : l[i]? with
  | none => rw [hl] at hi; exact Option.noConfusion hi
  | some a =>
      rw [hl] at hi
      injection hi with hi
      have : a = p.2 := congrArg Prod.snd hi
      subst this
      exact List.getElem?_mem hl

/-- A member of the taken prefix occupies a position of the enumeration. -/
theorem enum_mem_of_mem_take (l : List String) (kw : String) (n : Nat)
    (h : kw ∈ l.take n) : ∃ i, (i, kw) ∈ (l.take n).enum := by
  obtain ⟨i, hi⟩ := List.mem_iff_getElem?.mp h
  have he : (l.take n).enum[i]? = some (i, kw) := by
    rw [List.getElem?_enum, hi]
    rfl
  exact ⟨i, List.getElem?_mem he⟩

theorem composeOne_shipped_contains (g : Rng) (now : String)
    (interest : List (String × Int)) (rqd : List (String × RelatedQueries))
    (i : Nat) (kw : String) (post : Post)
    (h : composeOne post_templates g now interest rqd i kw = Except.ok post) :
    post.keyword.data <:+: post.content.data := by
  obtain ⟨hkw, _, _, ctx, body, hctx, hbody, hcontent⟩ :=
    composeOne_ok_fields post_templates g now interest rqd i kw post h
  have hparse := post_templates_parse _ (selectCategory_mem g i) _
    (selectTemplate_mem g i)
  unfold pyFormat at hbody
  cases hp : parseTpl (selectTemplate post_templates g i).data with
  | error e =>
      rw [hp] at hbody
      exact Except.noConfusion hbody
  | ok parts =>
      rw [hp] at hbody
      injection hbody with hbody
      have hmem : TplPart.fieldKeyword ∈ parts := by
        have h2 := hparse.2.1
        rw [hp] at h2
        simpa [Except.toOption] using h2
      have hinf := renderTpl_keyword_infix kw ctx parts hmem
      rw [hkw, hcontent, ← hbody]
      rw [String.data_append, String.data_append]
      exact infix_extend _ (infix_extend _ hinf)

/-! ## C1 -/

/-- C1 counterexample: on a related-queries mapping holding a present frame
for the keyword — the normal data-present case — the composer does not
return `min 5 ks.length` posts: it raises the DataFrame truth-test
`ValueError` and produces nothing. -/
theorem C1_counterexample_frame_raises :
    create_social_media_posts g0 "" ["NTSA"] []
        [("NTSA", ⟨some ["road safety"]⟩)] =
      Except.error dataFrameBoolError ∧
    (create_social_media_posts g0 "" ["NTSA"] []
        [("NTSA", ⟨some ["road safety"]⟩)]).toOption = none :=
  ⟨rfl, rfl⟩

/-- C1 amended: when no taken keyword's related-queries entry holds a present
frame, the composer returns exactly `min 5 ks.length` posts, in input order
with each post's `keyword` field equal to its source keyword, every content
containing that keyword as a literal substring; when some taken keyword's
entry holds a present frame, the composer instead raises the DataFrame
truth-test `ValueError` and returns nothing. -/
theorem C1_composer_amended (g : Rng) (now : String) (ks : List String)
    (interest : List (String × Int)) (rqd : List (String × RelatedQueries)) :
    ((∀ kw ∈ ks.take 5, ((List.lookup kw rqd).getD ⟨none⟩).top = none) →
      ∃ posts, create_social_media_posts g now ks interest rqd = Except.ok posts ∧
        posts.length = min 5 ks.length ∧
        posts.map Post.keyword = ks.take 5 ∧
        ∀ p ∈ posts, p.keyword.data <:+: p.content.data) ∧
    ((∃ kw ∈ ks.take 5, ((List.lookup kw rqd).getD ⟨none⟩).top ≠ none) →
      create_social_media_posts g now ks interest rqd =
        Except.error dataFrameBoolError) := by
  constructor
  · intro hfree
    obtain ⟨posts, hposts⟩ := composeLoop_ok_exists post_templates g now interest
      rqd (ks.take 5).enum (fun p hp => composeOne_shipped_ok g now interest rqd
        p.1 p.2 (hfree p.2 (snd_mem_of_mem_enum hp)))
    obtain ⟨hmap, _, hmem⟩ := composeLoop_ok_structure post_templates g now
      interest rqd (ks.take 5).enum posts hposts
    refine ⟨posts, hposts, ?_, ?_, ?_⟩
    · have hl : posts.length = (ks.take 5).enum.length := by
        rw [← List.length_map posts Post.keyword, hmap, List.length_map]
      rw [hl, List.enum_length, List.length_take]
    · rw [hmap]
      show (ks.take 5).enum.map Prod.snd = ks.take 5
      exact List.enum_map_snd _
    · intro p hp
      obtain ⟨pr, _, hone⟩ := hmem p hp
      exact composeOne_shipped_contains g now interest rqd pr.1 pr.2 p hone
  · rintro ⟨kw, hkmem, hbad⟩
    obtain ⟨i, hienum⟩ := enum_mem_of_mem_take ks kw 5 hkmem
    show composeLoop post_templates g now interest rqd (ks.take 5).enum =
      Except.error dataFrameBoolError
    apply composeLoop_error_first post_templates g now interest rqd
      (ks.take 5).enum
    · intro p _
      by_cases hb : ((List.lookup p.2 rqd).getD ⟨none⟩).top = none
      · exact Or.inr (composeOne_shipped_ok g now interest rqd p.1 p.2 hb)
      · exact Or.inl (composeOne_frame_error post_templates g now interest rqd
          p.1 p.2 hb)
    · exact ⟨(i, kw), hienum, composeOne_frame_error post_templates g now interest
        rqd i kw hbad⟩

/-- Witness for C1: the frame-free branch instantiated at a concrete input. -/
theorem C1_composer_witness :
    ∃ posts, create_social_media_posts g0 "" ["NTSA"] [] [] = Except.ok posts ∧
      posts.length = min 5 (["NTSA"] : List String).length ∧
      posts.map Post.keyword = (["NTSA"] : List String).take 5 ∧
      ∀ p ∈ posts, p.keyword.data <:+: p.content.data :=
  (C1_composer_amended g0 "" ["NTSA"] [] []).1 (by decide)

/-! ## C2 -/

/-- C2 counterexample: when the related-queries dict holds a frame under
the key top — present data or an empty frame alike — generate_context does
not return a space-joined string or the fallback: truth-testing the
DataFrame raises ValueError. -/
theorem C2_counterexample_frame_raises :
    generate_context "NTSA" [("NTSA", (85 : Int))] ⟨some ["road safety"]⟩ =
      Except.error dataFrameBoolError ∧
    generate_context "NTSA" [] ⟨some []⟩ = Except.error dataFrameBoolError :=
  ⟨rfl, rfl⟩

/-- C2 amended: the interest-tier fragment of context_parts is the single
phrase by the >80 / >50 thresholds when the keyword is scored and empty
otherwise; when no frame sits under top the function returns the
space-joined parts, the fallback string exactly when no part was emitted,
which happens iff the keyword is unscored; when a frame sits under top the
function raises the DataFrame truth-test ValueError instead of returning. -/
theorem C2_generate_context_amended (kw : String) (interest : List (String × Int))
    (rq : RelatedQueries) :
    ((∀ s : Int, List.lookup kw interest = some s →
        tierParts kw interest =
          [if s > 80 then peakPhrase else
           if s > 50 then growingPhrase else momentumPhrase]) ∧
      (List.lookup kw interest = none → tierParts kw interest = [])) ∧
    (rq.top = none →
      generate_context kw interest rq =
        Except.ok (if tierParts kw interest = [] then fallbackPhrase
                   else joinSp (tierParts kw interest))) ∧
    (rq.top = none →
      (generate_context kw interest rq = Except.ok fallbackPhrase ↔
        List.lookup kw interest = none)) ∧
    (∀ df, rq.top = some df →
      generate_context kw interest rq = Except.error dataFrameBoolError) := by
  refine ⟨⟨?_, ?_⟩, ?_, ?_, ?_⟩
  · intro s hs
    simp only [tierParts, hs]
    split_ifs <;> rfl
  · intro hn
    simp only [tierParts, hn]
  · intro htop
    rw [RelatedQueries_top_none rq htop]
    rfl
  · intro htop
    rw [RelatedQueries_top_none rq htop]
    show (Except.ok (if tierParts kw interest = [] then fallbackPhrase
          else joinSp (tierParts kw interest)) : Except String String) =
        Except.ok fallbackPhrase ↔ List.lookup kw interest = none
    cases hlk : List.lookup kw interest with
    | none =>
        simp only [tierParts, hlk]
        simp
    | some s =>
        simp only [tierParts, hlk]
        constructor
        · intro h
          exfalso
          split_ifs at h
          all_goals first
            | assumption
            | (injection h with h4; exact absurd h4 (by decide))
        · intro h
          exact Option.noConfusion h
  · intro df htop
    rw [show rq = ⟨some df⟩ from by cases rq; simp_all]
    rfl

/-! ## C3 -/

/-- C3 counterexample: on malformed log content `load_previous_trends` does
not return the empty set — the `json.JSONDecodeError` propagates, because the
`try` block only catches `FileNotFoundError`. -/
theorem C3_counterexample_malformed_raises :
    load_previous_trends LogFile.malformed ≠ Except.ok [] ∧
    load_previous_trends LogFile.malformed = Except.error "json.JSONDecodeError" := by
  refine ⟨?_, rfl⟩
  intro h
  exact absurd h (by simp [load_previous_trends])

/-- C3 amended: `load_previous_trends` returns the empty list when the log
file is missing, and returns the stored list (defaulting to empty when the
`processed_keywords` entry is absent) for a well-formed file; but on malformed
content it raises (the JSON decode error is not caught) instead of warning and
returning the empty set. -/
theorem C3_load_previous_trends_amended :
    load_previous_trends LogFile.missing = Except.ok [] ∧
    (∀ pk, load_previous_trends (LogFile.parsed pk) = Except.ok (pk.getD [])) ∧
    ∃ e, load_previous_trends LogFile.malformed = Except.error e :=
  ⟨rfl, fun _ => rfl, "json.JSONDecodeError", rfl⟩

/-! ## C4 -/

/-- C4 counterexample: with an empty fetched trending list the composer does
return `[]`, but `run_automation` returns early — it writes no output file at
all (no `saveData` in the trace), contrary to the claimed empty-posts write. -/
theorem C4_counterexample_no_write_on_empty :
    create_social_media_posts g0 "" [] [] [] = Except.ok [] ∧
    (run_automation g0 "" fEmpty).1 = none ∧
    FileOp.saveData ∉ (run_automation g0 "" fEmpty).2 := by
  refine ⟨rfl, rfl, ?_⟩
  show FileOp.saveData ∉ ([] : List FileOp)
  simp

/-- C4 amended: the Post Composer maps an empty keyword list to the empty
post list without error, but a run whose fetched trending list is empty stops
at the `if not trending_keywords: return` guard: it writes no output file
(there is no file write in its trace), rather than writing one with an empty
`generated_posts` field. -/
theorem C4_empty_trending_amended (g : Rng) (now : String)
    (interest : List (String × Int)) (rqd : List (String × RelatedQueries))
    (f : FetchResults) (h : f.trending = []) :
    create_social_media_posts g now [] interest rqd = Except.ok [] ∧
    run_automation g now f = (none, []) := by
  refine ⟨rfl, ?_⟩
  unfold run_automation
  rw [if_pos h]

/-- Witness for C4: the amended statement instantiated at concrete inputs. -/
theorem C4_empty_trending_witness :
    create_social_media_posts g0 "" [] [] [] = Except.ok [] ∧
    run_automation g0 "" fEmpty = (none, []) :=
  C4_empty_trending_amended g0 "" [] [] fEmpty rfl

/-! ## C5 -/

set_option maxRecDepth 8000 in
/-- C5 counterexample: a completing run with a nonempty fetched list performs
exactly one file operation — writing the output data file — and a run aborted
by the DataFrame `ValueError` performs none.  No run reads or overwrites the
processed-keyword log, contrary to the claimed load-at-start /
overwrite-at-end behaviour. -/
theorem C5_counterexample_no_log_io :
    (run_automation g0 "" fFive).2 = [FileOp.saveData] ∧
    FileOp.loadPrev ∉ (run_automation g0 "" fFive).2 ∧
    FileOp.savePrev ∉ (run_automation g0 "" fFive).2 ∧
    (run_automation g0 "" fFiveFrames).2 = [] := by
  have h1 : (run_automation g0 "" fFive).2 = [FileOp.saveData] := by rfl
  have h2 : (run_automation g0 "" fFiveFrames).2 = [] := by rfl
  refine ⟨h1, ?_, ?_, h2⟩ <;>
    · rw [h1]
      simp

/-- C5 amended: `run_automation` never touches the processed-keyword log: in
every run its file-operation trace contains neither the load nor the save of
`previous_trends.json` (the `load_previous_trends` / `save_processed_trends`
helpers exist but are never invoked); a run that reaches the output-data
write performs exactly that one file operation, and a run that produced no
output — empty fetch or a raised exception caught at the top — performs
none. -/
theorem C5_run_never_touches_log (g : Rng) (now : String) (f : FetchResults) :
    FileOp.loadPrev ∉ (run_automation g now f).2 ∧
    FileOp.savePrev ∉ (run_automation g now f).2 ∧
    (∀ out, (run_automation g now f).1 = some out →
      (run_automation g now f).2 = [FileOp.saveData]) ∧
    ((run_automation g now f).1 = none → (run_automation g now f).2 = []) := by
  simp only [run_automation]
  split_ifs with h
  · simp
  · cases hc : create_social_media_posts g now f.trending
        (f.interest (f.trending.take 5))
        ((f.trending.take 3).map fun keyword => (keyword, f.related keyword)) with
    | error e => simp
    | ok posts => simp

/-- Witness for C5: concrete runs — one completing, one aborted — obey the
trace characterisation. -/
theorem C5_run_never_touches_log_witness :
    FileOp.loadPrev ∉ (run_automation g0 "" fEmpty).2 ∧
    FileOp.savePrev ∉ (run_automation g0 "" fEmpty).2 ∧
    ((run_automation g0 "" fEmpty).1 = none → (run_automation g0 "" fEmpty).2 = []) :=
  ⟨(C5_run_never_touches_log g0 "" fEmpty).1,
   (C5_run_never_touches_log g0 "" fEmpty).2.1,
   (C5_run_never_touches_log g0 "" fEmpty).2.2.2⟩

/-! ## C6 -/

/-- C6: whenever the composer completes, every composed post records
`character_count` equal to the length of its final content (hashtags
included), carries a category tag among the four defined pools, and has
exactly three hashtags — sampled without replacement from the configured
pool — appended space-joined to its content. -/
theorem C6_post_invariants (g : Rng) (now : String) (ks : List String)
    (interest : List (String × Int)) (rqd : List (String × RelatedQueries))
    (hs : Rng.SampleValid g) (posts : List Post)
    (hc : create_social_media_posts g now ks interest rqd = Except.ok posts) :
    ∀ p ∈ posts,
      p.character_count = p.content.length ∧
      p.template_type ∈ ["trending", "educational", "engagement", "news"] ∧
      ∃ body tags, tags.length = 3 ∧ tags.Nodup ∧
        (∀ t ∈ tags, t ∈ hashtags_kenya) ∧
        p.content = body ++ " " ++ joinSp tags := by
  intro p hp
  obtain ⟨_, _, hmem⟩ := composeLoop_ok_structure post_templates g now interest
    rqd (ks.take 5).enum posts hc
  obtain ⟨pr, _, hone⟩ := hmem p hp
  obtain ⟨_, htt, hcc, ctx, body, _, _, hcontent⟩ :=
    composeOne_ok_fields post_templates g now interest rqd pr.1 pr.2 p hone
  obtain ⟨hlen, hnd, htags⟩ := hs pr.1
  refine ⟨hcc, ?_, ?_⟩
  · rw [htt]
    have hc2 := selectCategory_mem g pr.1
    simp only [categoryChoices, List.mem_cons, List.not_mem_nil, or_false] at hc2
    rcases hc2 with h | h | h <;> rw [h] <;> decide
  · exact ⟨body, g.sampleTags pr.1, hlen, hnd, htags, hcontent⟩

def w6p : Post :=
  ((create_social_media_posts g0 "" ["NTSA"] [] []).toOption.getD []).headD default

set_option maxRecDepth 8000 in
/-- Witness for C6: the invariants instantiated at the concrete first post of
a completing one-keyword run under the `g0` oracle. -/
theorem C6_post_invariants_witness :
    w6p.character_count = w6p.content.length ∧
    w6p.template_type ∈ ["trending", "educational", "engagement", "news"] ∧
    ∃ body tags, tags.length = 3 ∧ tags.Nodup ∧
      (∀ t ∈ tags, t ∈ hashtags_kenya) ∧
      w6p.content = body ++ " " ++ joinSp tags :=
  C6_post_invariants g0 "" ["NTSA"] [] [] g0_sample_valid
    ((create_social_media_posts g0 "" ["NTSA"] [] []).toOption.getD [])
    (by rfl) w6p (by decide)

/-! ## C7 -/

/-- C7 counterexample: the `news` category has a defined template pool in
`Config.POST_TEMPLATES`, yet the composer's category draw list
`['trending', 'educational', 'engagement']` omits it (and `news` has no pool
in `SocialMediaGenerator.post_templates` either), so the news category is
never selectable — the draw is not over the four defined categories. -/
theorem C7_counterexample_news_never_selected :
    "news" ∉ categoryChoices ∧
    List.lookup "news" post_templates = none ∧
    (List.lookup "news" POST_TEMPLATES).isSome = true := by
  decide

/-- C7 amended: the composer draws the category uniformly from the three-item
list `['trending', 'educational', 'engagement']` — each of the three occupies
exactly one slot of the draw list, so a uniform index draw selects each with
probability 1/3 and `news` never — and then draws the template from the
selected category's pool, whose templates are pairwise distinct, so a uniform
index draw over a pool selects each template equally. -/
theorem C7_selection_amended (g : Rng) (i : Nat) :
    selectCategory g i ∈ categoryChoices ∧
    categoryChoices = ["trending", "educational", "engagement"] ∧
    (∀ c ∈ categoryChoices, categoryChoices.count c = 1) ∧
    selectTemplate post_templates g i ∈ poolOf post_templates (selectCategory g i) ∧
    (∀ c ∈ categoryChoices,
        (poolOf post_templates c).Nodup ∧ poolOf post_templates c ≠ []) := by
  refine ⟨selectCategory_mem g i, rfl, ?_, selectTemplate_mem g i, ?_⟩ <;> decide

/-! ## C8 -/

theorem POST_TEMPLATES_pools_ne_nil (c : String) (pool : List String)
    (h : List.lookup c POST_TEMPLATES = some pool) : pool ≠ [] := by
  simp only [POST_TEMPLATES, List.lookup] at h
  repeat' split at h
  all_goals first
    | exact Option.noConfusion h
    | (injection h with h2; subst h2; simp)

/-- C8: `get_template_by_category` returns the pool of every defined
category, deterministically falls back to the `trending` pool for an
unrecognized category, and never returns an empty pool — every defined
category's pool being nonempty. -/
theorem C8_get_template_by_category_spec :
    (∀ c pool, List.lookup c POST_TEMPLATES = some pool →
        get_template_by_category c = pool) ∧
    (∀ c, List.lookup c POST_TEMPLATES = none →
        get_template_by_category c = poolOf POST_TEMPLATES "trending") ∧
    (∀ c, get_template_by_category c ≠ []) ∧
    (∀ c pool, List.lookup c POST_TEMPLATES = some pool → pool ≠ []) := by
  refine ⟨?_, ?_, ?_, fun c pool h => POST_TEMPLATES_pools_ne_nil c pool h⟩
  · intro c pool h
    unfold get_template_by_category
    rw [h]
    rfl
  · intro c h
    unfold get_template_by_category
    rw [h]
    rfl
  · intro c
    unfold get_template_by_category
    cases h : List.lookup c POST_TEMPLATES with
    | none => decide
    | some pool => simpa using POST_TEMPLATES_pools_ne_nil c pool h

/-- Witness for C8: a defined category returns its own pool, an unrecognized
one the `trending` pool, and neither result is empty. -/
theorem C8_get_template_by_category_witness :
    get_template_by_category "news" = poolOf POST_TEMPLATES "news" ∧
    get_template_by_category "nonsense" = poolOf POST_TEMPLATES "trending" ∧
    get_template_by_category "nonsense" ≠ [] :=
  ⟨C8_get_template_by_category_spec.1 "news" (poolOf POST_TEMPLATES "news")
      (by decide),
   C8_get_template_by_category_spec.2.1 "nonsense" (by decide),
   C8_get_template_by_category_spec.2.2.1 "nonsense"⟩

/-! ## C9 -/

/-- A template carrying neither the `{keyword}` nor the `{context}`
placeholder (and no braces at all, so `str.format` accepts it). -/
def fixedTpl : String := "A fixed post about Kenya with no placeholders at all"

/-- A template table whose every pool holds only `fixedTpl`: the
placeholder-free-template scenario of the claim. -/
def tblNoPlaceholders : List (String × List String) :=
  [("trending", [fixedTpl]), ("educational", [fixedTpl]), ("engagement", [fixedTpl])]

theorem tblNoPlaceholders_template (g : Rng) (i : Nat) :
    listChoice (poolOf tblNoPlaceholders (selectCategory g i)) (g.pickTpl i) =
      fixedTpl := by
  have hc := selectCategory_mem g i
  simp only [categoryChoices, List.mem_cons, List.not_mem_nil, or_false] at hc
  rcases hc with h | h | h <;>
    simp [h, listChoice, poolOf, tblNoPlaceholders, List.lookup, Nat.mod_one]

theorem pyFormat_fixed (kw ctx : String) :
    pyFormat fixedTpl kw ctx = Except.ok fixedTpl := rfl

theorem composeOne_fixed (g : Rng) (now : String)
    (interest : List (String × Int)) (i : Nat) (kw : String) :
    composeOne tblNoPlaceholders g now interest [] i kw =
      Except.ok (composedPost g now (selectCategory g i) fixedTpl kw i) := by
  have heq : composeOne tblNoPlaceholders g now interest [] i kw =
      (match pyFormat (listChoice (poolOf tblNoPlaceholders (selectCategory g i))
          (g.pickTpl i)) kw
          (if tierParts kw interest = [] then fallbackPhrase
           else joinSp (tierParts kw interest)) with
        | Except.error e => Except.error e
        | Except.ok pc =>
            Except.ok (composedPost g now (selectCategory g i) pc kw i)) := rfl
  rw [heq, tblNoPlaceholders_template g i, pyFormat_fixed]

set_option maxRecDepth 8000 in
/-- C9 counterexample: `fixedTpl` parses (str.format accepts it) yet carries
neither placeholder; drawing it for keyword NTSA still yields a post — the
batch item is kept, with the keyword silently absent from the content — so
nothing is rejected or skipped. -/
theorem C9_counterexample_no_rejection :
    (parseTpl fixedTpl.data).toOption.isSome = true ∧
    TplPart.fieldKeyword ∉ (parseTpl fixedTpl.data).toOption.getD [] ∧
    TplPart.fieldContext ∉ (parseTpl fixedTpl.data).toOption.getD [] ∧
    (∃ post,
      create_social_media_posts_with tblNoPlaceholders g0 "" ["NTSA"] [] [] =
        Except.ok [post] ∧
      post.keyword = "NTSA" ∧
      ¬("NTSA".data <:+: post.content.data)) := by
  refine ⟨by decide, by decide, by decide,
    composedPost g0 "" (selectCategory g0 0) fixedTpl "NTSA" 0, rfl, rfl, ?_⟩
  decide

/-- C9 amended: the composer performs no placeholder validation and skips no
item: whenever it completes (over any template table) it yields one post per
taken keyword, in order; with a placeholder-free table every keyword still
gets a post whose content is the untouched template plus hashtags — the
keyword silently omitted (str.format ignores unused keyword arguments); in
the shipped table every template parses and carries both placeholders, so
the case cannot arise there. -/
theorem C9_no_rejection_amended (g : Rng) (now : String) :
    (∀ (tbl : List (String × List String)) (ks : List String)
        (interest : List (String × Int))
        (rqd : List (String × RelatedQueries)) (posts : List Post),
      create_social_media_posts_with tbl g now ks interest rqd =
          Except.ok posts →
        posts.map Post.keyword = ks.take 5) ∧
    (∀ (kw : String) (interest : List (String × Int)),
      ∃ post,
        create_social_media_posts_with tblNoPlaceholders g now [kw] interest [] =
          Except.ok [post] ∧
        post.keyword = kw ∧
        post.content = fixedTpl ++ " " ++ joinSp (g.sampleTags 0)) ∧
    (∀ e ∈ post_templates, ∀ t ∈ e.2,
      (parseTpl t.data).toOption.isSome = true ∧
      TplPart.fieldKeyword ∈ (parseTpl t.data).toOption.getD [] ∧
      TplPart.fieldContext ∈ (parseTpl t.data).toOption.getD []) := by
  refine ⟨?_, ?_, by decide⟩
  · intro tbl ks interest rqd posts hc
    obtain ⟨hmap, _, _⟩ := composeLoop_ok_structure tbl g now interest rqd
      (ks.take 5).enum posts hc
    rw [hmap]
    show (ks.take 5).enum.map Prod.snd = ks.take 5
    exact List.enum_map_snd _
  · intro kw interest
    refine ⟨composedPost g now (selectCategory g 0) fixedTpl kw 0, ?_, rfl, rfl⟩
    show composeLoop tblNoPlaceholders g now interest [] [(0, kw)] = _
    rw [composeLoop_cons_ok_ok tblNoPlaceholders g now interest [] (0, kw) []
      (composedPost g now (selectCategory g 0) fixedTpl kw 0) []
      (composeOne_fixed g now interest 0 kw) rfl]

/-! ## C10 -/

set_option maxRecDepth 8000 in
/-- C10 counterexample: on the normal data-present fetch shape — a present
related frame for each of the first three keywords — the composer raises the
DataFrame `ValueError` at the very first keyword, the run's top-level
`except` swallows it, and no posts exist at any position: the claimed
position-4/5 posts with empty related sets never come to be. -/
theorem C10_counterexample_frame_aborts_run :
    create_social_media_posts g0 "" fFiveFrames.trending
        (fFiveFrames.interest (fFiveFrames.trending.take 5))
        ((fFiveFrames.trending.take 3).map fun k => (k, fFiveFrames.related k)) =
      Except.error dataFrameBoolError ∧
    (run_automation g0 "" fFiveFrames).1 = none ∧
    (run_automation g0 "" fFiveFrames).2 = [] :=
  ⟨rfl, rfl, rfl⟩

/-- C10 amended: in a completing run — nonempty fetch, no related frame for
the first three keywords — related queries are fetched only for the first 3
trending keywords while posts are generated for the first 5; every composed
post's keyword then sees the frame-free related dict (positions 4 and 5 miss
the dict entirely unless they repeat an earlier keyword), and its context is
a tier phrase or the fallback string — never the related-searches clause,
which is unreachable.  When a taken frame is present the run instead aborts
with the DataFrame `ValueError` and produces no posts at all. -/
theorem C10_related_top3_amended (g : Rng) (now : String) (f : FetchResults)
    (hne : f.trending ≠ [])
    (hfree : ∀ k ∈ f.trending.take 3, (f.related k).top = none) :
    ∃ out, (run_automation g now f).1 = some out ∧
      out.related_queries =
        (f.trending.take 3).map (fun k => (k, f.related k)) ∧
      out.generated_posts.map Post.keyword = f.trending.take 5 ∧
      ∀ (i : Nat) (kw : String), (f.trending.take 5)[i]? = some kw →
        (List.lookup kw out.related_queries).getD ⟨none⟩ =
          (⟨none⟩ : RelatedQueries) ∧
        ∃ ctx post body,
          generate_context kw out.interest_data ⟨none⟩ = Except.ok ctx ∧
          ctx ∈ [peakPhrase, growingPhrase, momentumPhrase, fallbackPhrase] ∧
          out.generated_posts[i]? = some post ∧
          post.keyword = kw ∧
          pyFormat (selectTemplate post_templates g i) kw ctx = Except.ok body ∧
          post.content = body ++ " " ++ joinSp (g.sampleTags i) := by
  set rqd := (f.trending.take 3).map (fun k => (k, f.related k)) with hrqd
  have hval : ∀ kw ∈ f.trending.take 5,
      (List.lookup kw rqd).getD ⟨none⟩ = (⟨none⟩ : RelatedQueries) := by
    intro kw _
    cases hlk : List.lookup kw rqd with
    | none => rfl
    | some rq =>
        obtain ⟨hmem3, hv⟩ := lookup_map_pair_eq_some (fun k => f.related k)
          (f.trending.take 3) kw rq hlk
        subst hv
        exact RelatedQueries_top_none _ (hfree kw hmem3)
  have hcomp : ∀ p ∈ (f.trending.take 5).enum,
      ∃ post, composeOne post_templates g now (f.interest (f.trending.take 5))
        rqd p.1 p.2 = Except.ok post := by
    intro p hp
    exact composeOne_shipped_ok g now (f.interest (f.trending.take 5)) rqd p.1
      p.2 (by rw [hval p.2 (snd_mem_of_mem_enum hp)])
  obtain ⟨posts, hposts⟩ := composeLoop_ok_exists post_templates g now
    (f.interest (f.trending.take 5)) rqd (f.trending.take 5).enum hcomp
  have hcreate : create_social_media_posts g now f.trending
      (f.interest (f.trending.take 5)) rqd = Except.ok posts := hposts
  have hrun : run_automation g now f =
      (some { timestamp := now
              trending_keywords := f.trending
              interest_data := f.interest (f.trending.take 5)
              related_queries := rqd
              generated_posts := posts }, [FileOp.saveData]) := by
    simp only [run_automation]
    rw [if_neg hne, ← hrqd, hcreate]
  refine ⟨{ timestamp := now
            trending_keywords := f.trending
            interest_data := f.interest (f.trending.take 5)
            related_queries := rqd
            generated_posts := posts }, ?_, hrqd, ?_, ?_⟩
  · rw [hrun]
  · obtain ⟨hmap, _, _⟩ := composeLoop_ok_structure post_templates g now
      (f.interest (f.trending.take 5)) rqd (f.trending.take 5).enum posts hposts
    rw [hmap]
    show (f.trending.take 5).enum.map Prod.snd = f.trending.take 5
    exact List.enum_map_snd _
  · intro i kw hik
    have hkmem : kw ∈ f.trending.take 5 := List.getElem?_mem hik
    refine ⟨hval kw hkmem, ?_⟩
    obtain ⟨_, hidx, _⟩ := composeLoop_ok_structure post_templates g now
      (f.interest (f.trending.take 5)) rqd (f.trending.take 5).enum posts hposts
    have henum : (f.trending.take 5).enum[i]? = some (i, kw) := by
      rw [List.getElem?_enum, hik]
      rfl
    obtain ⟨post, hpi, hone⟩ := hidx i (i, kw) henum
    obtain ⟨hkw, _, _, ctx, body, hctx, hbody, hcontent⟩ :=
      composeOne_ok_fields post_templates g now (f.interest (f.trending.take 5))
        rqd i kw post hone
    rw [hval kw hkmem] at hctx
    exact ⟨ctx, post, body, hctx,
      generate_context_none_ok_mem kw (f.interest (f.trending.take 5)) ctx hctx,
      hpi, hkw, hbody, hcontent⟩

set_option maxRecDepth 8000 in
/-- Witness for C10: the amended statement at the concrete completing
five-keyword fetch under the `g0` oracle. -/
theorem C10_related_top3_witness :
    ∃ out, (run_automation g0 "" fFive).1 = some out ∧
      out.related_queries =
        (fFive.trending.take 3).map (fun k => (k, fFive.related k)) ∧
      out.generated_posts.map Post.keyword = fFive.trending.take 5 ∧
      ∀ (i : Nat) (kw : String), (fFive.trending.take 5)[i]? = some kw →
        (List.lookup kw out.related_queries).getD ⟨none⟩ =
          (⟨none⟩ : RelatedQueries) ∧
        ∃ ctx post body,
          generate_context kw out.interest_data ⟨none⟩ = Except.ok ctx ∧
          ctx ∈ [peakPhrase, growingPhrase, momentumPhrase, fallbackPhrase] ∧
          out.generated_posts[i]? = some post ∧
          post.keyword = kw ∧
          pyFormat (selectTemplate post_templates g0 i) kw ctx = Except.ok body ∧
          post.content = body ++ " " ++ joinSp (g0.sampleTags i) :=
  C10_related_top3_amended g0 "" fFive (by decide) (by decide)
